import Mathlib

/-!
Verification of the website-crawler / signal-extraction engine
(`src/app/crawler.py`, class `WebsiteCrawler`).

The Python code is shallowly embedded here:
* pages are modelled at the parsed level (a `Page` structure holding the
  pieces of markup the crawler reads: script tags, iframe `src` values,
  the `lang` attributes, forms, the raw response text, ...);
* `requests.get` is modelled by an oracle `String → Nat → FetchResp`
  mapping (url, timeout) to a response or a raised exception;
* Python `re.findall` is modelled by a small backtracking matcher over
  `List Char`, sufficient for the concrete regexes the crawler uses
  (literal runs, `\d+` capture, `\s+`, `\s*`, single optional characters,
  character classes with `+`/`{n,}`, and non-capturing alternations of
  literal branches).  Character classes (`\d`, `\s`, `\w`, lowercasing)
  are modelled over ASCII; all concrete inputs used below are ASCII,
  where Python and this model agree.
-/

/- ---------------------------------------------------------------- -/
/- Basic string helpers (hand-rolled so that the kernel can reduce  -/
/- them on concrete inputs).                                        -/
/- ---------------------------------------------------------------- -/

/-- Is `n` a prefix of `h`? -/
def listPrefixOf : List Char → List Char → Bool
  | [], _ => true
  | _ :: _, [] => false
  | a :: as, b :: bs => a == b && listPrefixOf as bs

/-- Is `n` a contiguous infix of `h`?  Models the Python `in` operator
on strings. -/
def listInfixOf (n h : List Char) : Bool :=
  match h with
  | [] => listPrefixOf n []
  | _ :: t => listPrefixOf n h || listInfixOf n t

/-- Python `needle in hay` for strings. -/
def substrOf (needle hay : String) : Bool := listInfixOf needle.toList hay.toList

/-- Python `s.startswith(p)`. -/
def startsWithC (p s : String) : Bool := listPrefixOf p.toList s.toList

/-- Python `s.lower()` (ASCII model). -/
def lowerStr (s : String) : String := ⟨s.toList.map Char.toLower⟩

/-- Python `s.upper()` (ASCII model). -/
def upperStr (s : String) : String := ⟨s.toList.map Char.toUpper⟩

/-- Python `s[:2]`. -/
def take2 (s : String) : String := ⟨s.toList.take 2⟩

/-- Python `s.rstrip('/')`. -/
def rstripSlash (s : String) : String :=
  ⟨(s.toList.reverse.dropWhile (fun c => c == '/')).reverse⟩

/-- Python `int(s)` on a non-empty all-digit string. -/
def toNatD (cs : List Char) : Nat := cs.foldl (fun a c => a * 10 + (c.toNat - 48)) 0

/- ---------------------------------------------------------------- -/
/- A small regex engine modelling `re.findall` for the crawler's    -/
/- patterns.                                                        -/
/- ---------------------------------------------------------------- -/

/-- `\d` (ASCII model). -/
def isDigitC (c : Char) : Bool := '0' ≤ c && c ≤ '9'

/-- `\s` (ASCII model: space, tab, newline, CR, VT, FF). -/
def isSpaceC (c : Char) : Bool :=
  c == ' ' || c == '\t' || c == '\n' || c == '\r' || c == '\x0b' || c == '\x0c'

/-- ASCII letter. -/
def isAlphaC (c : Char) : Bool := ('a' ≤ c && c ≤ 'z') || ('A' ≤ c && c ≤ 'Z')

/-- ASCII letter or digit. -/
def isAlnumC (c : Char) : Bool := isAlphaC c || isDigitC c

/-- One element of a regex: enough to express every pattern appearing in
`crawler.py` (no nesting beyond one level of non-capturing alternation,
and at most one capturing group `(\d+)` per pattern, as in the source). -/
inductive Atom where
  /-- a single character matching `p` (a literal, or a character class) -/
  | one (p : Char → Bool)
  /-- greedy `[class]+` / `[class]{mn,}` -/
  | many (p : Char → Bool) (mn : Nat)
  /-- greedy `[class]?` -/
  | optA (p : Char → Bool)
  /-- the capturing group `(\d+)` -/
  | grpD
  /-- non-capturing alternation `(?:b1|b2|...)`; branches hold no capture
  and no nested alternation -/
  | alt (bs : List (List Atom))

abbrev Pat := List Atom

/-- Length of the maximal prefix of `s` whose characters satisfy `p`. -/
def runLen (p : Char → Bool) : List Char → Nat
  | [] => 0
  | c :: cs => if p c then runLen p cs + 1 else 0

/-- Greedy backtracking over a quantifier: try consuming `n`, `n-1`, ...,
`mn` characters, first success wins (Python quantifiers are greedy and
backtrack on failure of the rest of the pattern). -/
def tryDown (cont : Nat → Option α) (mn : Nat) : Nat → Option α
  | 0 => if mn == 0 then cont 0 else none
  | n + 1 =>
    if n + 1 < mn then none
    else
      match cont (n + 1) with
      | some r => some r
      | none => tryDown cont mn n

/-- Matcher for an alternation branch, in continuation style so that
failure of the rest of the pattern backtracks into the branch.  Branches
contain no capture and no nested alternation (those constructors fail). -/
def mseqB (b : List Atom) (k : List Char → Option (List Char × List Char))
    (s : List Char) : Option (List Char × List Char) :=
  match b with
  | [] => k s
  | .one p :: rest =>
    match s with
    | [] => none
    | c :: cs => if p c then mseqB rest k cs else none
  | .optA p :: rest =>
    match s with
    | [] => mseqB rest k []
    | c :: cs =>
      if p c then
        match mseqB rest k cs with
        | some r => some r
        | none => mseqB rest k s
      else mseqB rest k s
  | .many p mn :: rest =>
    tryDown (fun len => mseqB rest k (s.drop len)) mn (runLen p s)
  | .grpD :: _ => none
  | .alt _ :: _ => none

/-- Match a pattern against a prefix of `s`; returns
(characters captured by `(\d+)`, rest of the input after the match). -/
def mseqT : Pat → List Char → Option (List Char × List Char)
  | [], s => some ([], s)
  | .one p :: rest, s =>
    match s with
    | [] => none
    | c :: cs => if p c then mseqT rest cs else none
  | .optA p :: rest, s =>
    match s with
    | [] => mseqT rest []
    | c :: cs =>
      if p c then
        match mseqT rest cs with
        | some r => some r
        | none => mseqT rest s
      else mseqT rest s
  | .many p mn :: rest, s =>
    tryDown (fun len => mseqT rest (s.drop len)) mn (runLen p s)
  | .grpD :: rest, s =>
    tryDown (fun len => (mseqT rest (s.drop len)).map (fun r => (s.take len, r.2))) 1
      (runLen isDigitC s)
  | .alt bs :: rest, s => bs.findSome? (fun b => mseqB b (fun s2 => mseqT rest s2) s)

/-- Scan for non-overlapping matches left to right (the `re.findall`
strategy): try to match at the current position, on success continue
after the match, on failure advance one character.  Returns
(capture, whole match) pairs.  The fuel is always called with
`length + 1`, which suffices since every step consumes at least one
character of the input. -/
def scanAll (pat : Pat) : Nat → List Char → List (List Char × List Char)
  | 0, _ => []
  | _ + 1, [] =>
    (match mseqT pat [] with
     | some (cap, _) => [(cap, [])]
     | none => [])
  | fuel + 1, c :: cs =>
    match mseqT pat (c :: cs) with
    | some (cap, rem) =>
      let consumed := (c :: cs).length - rem.length
      if consumed == 0 then (cap, []) :: scanAll pat fuel cs
      else (cap, (c :: cs).take consumed) :: scanAll pat fuel rem
    | none => scanAll pat fuel cs

/-- `re.findall` for a pattern holding the capturing group `(\d+)`:
returns the list of captures. -/
def findallD (pat : Pat) (s : List Char) : List (List Char) :=
  (scanAll pat (s.length + 1) s).map Prod.fst

/-- `re.findall` for a pattern without groups: returns the whole
matches. -/
def findallW (pat : Pat) (s : List Char) : List String :=
  (scanAll pat (s.length + 1) s).map (fun r => ⟨r.2⟩)

/-- Literal word as a pattern fragment. -/
def litP (w : String) : Pat := w.toList.map (fun c => Atom.one (fun d => d == c))

/-- `\s+`. -/
def wsP : Atom := .many isSpaceC 1

/-- `\s*`. -/
def ws0P : Atom := .many isSpaceC 0

/-- `(\d+)`. -/
def digP : Atom := .grpD

/-- `c?`. -/
def optCh (c : Char) : Atom := .optA (fun d => d == c)

/- ---------------------------------------------------------------- -/
/- Numeric Fact Extractor: `_extract_room_count_enhanced`.          -/
/- The pattern library below is the `patterns` list of the source,  -/
/- in order, each regex rendered into `Pat` form.                   -/
/- ---------------------------------------------------------------- -/

def roomPatterns : List (Pat × String) := [
  -- German - Basic
  ([digP, wsP] ++ litP "zimmer", "basic_zimmer"),
  ([digP, wsP] ++ litP "hotelzimmer", "hotelzimmer"),
  ([digP, wsP] ++ litP "gästezimmer", "gaestezimmer"),
  ([digP, wsP] ++ litP "doppelzimmer", "doppelzimmer"),
  ([digP, wsP] ++ litP "einzelzimmer", "einzelzimmer"),
  ([digP, wsP] ++ litP "komfortable" ++ [wsP] ++ litP "zimmer", "komfortable_zimmer"),
  ([digP, wsP] ++ litP "gemütliche" ++ [wsP] ++ litP "zimmer", "gemuetliche_zimmer"),
  ([digP, wsP] ++ litP "moderne" ++ [wsP] ++ litP "zimmer", "moderne_zimmer"),
  -- German - Sentence patterns
  (litP "verfügen" ++ [wsP] ++ litP "über" ++ [wsP, digP, wsP] ++ litP "zimmer", "verfuegen_ueber"),
  (litP "bieten" ++ [wsP, digP, wsP] ++ litP "zimmer", "bieten"),
  (litP "insgesamt" ++ [wsP, digP, wsP] ++ litP "zimmer", "insgesamt"),
  (litP "gesamt" ++ [wsP, digP, wsP] ++ litP "zimmer", "gesamt"),
  ([digP, wsP] ++ litP "zimmer" ++ [wsP] ++ litP "und" ++ [wsP] ++ litP "suiten", "zimmer_und_suiten"),
  (litP "hotel" ++ [wsP,
     Atom.alt [litP "verfügt" ++ [wsP] ++ litP "über", litP "hat", litP "bietet", litP "besitzt"],
     wsP, digP, wsP] ++ litP "zimmer", "hotel_hat"),
  (litP "wir" ++ [wsP,
     Atom.alt [litP "verfügen" ++ [wsP] ++ litP "über", litP "haben", litP "bieten"],
     wsP, digP, wsP] ++ litP "zimmer", "wir_haben"),
  (litP "unser" ++ [wsP] ++ litP "haus" ++ [wsP,
     Atom.alt [litP "verfügt" ++ [wsP] ++ litP "über", litP "hat", litP "bietet"],
     wsP, digP, wsP] ++ litP "zimmer", "unser_haus"),
  -- English - Basic
  ([digP, wsP] ++ litP "room" ++ [optCh 's'], "basic_rooms"),
  ([digP, wsP] ++ litP "guest" ++ [wsP] ++ litP "room" ++ [optCh 's'], "guest_rooms"),
  ([digP, wsP] ++ litP "hotel" ++ [wsP] ++ litP "room" ++ [optCh 's'], "hotel_rooms"),
  ([digP, wsP] ++ litP "double" ++ [wsP] ++ litP "room" ++ [optCh 's'], "double_rooms"),
  ([digP, wsP] ++ litP "single" ++ [wsP] ++ litP "room" ++ [optCh 's'], "single_rooms"),
  ([digP, wsP] ++ litP "comfortable" ++ [wsP] ++ litP "room" ++ [optCh 's'], "comfortable_rooms"),
  ([digP, wsP] ++ litP "elegant" ++ [wsP] ++ litP "room" ++ [optCh 's'], "elegant_rooms"),
  ([digP, wsP] ++ litP "modern" ++ [wsP] ++ litP "room" ++ [optCh 's'], "modern_rooms"),
  -- English - Sentence patterns
  (litP "feature" ++ [wsP, digP, wsP] ++ litP "room" ++ [optCh 's'], "feature"),
  (litP "offer" ++ [wsP, digP, wsP] ++ litP "room" ++ [optCh 's'], "offer"),
  (litP "total" ++ [wsP] ++ litP "of" ++ [wsP, digP, wsP] ++ litP "room" ++ [optCh 's'], "total_of"),
  ([digP, wsP] ++ litP "room" ++ [optCh 's', wsP] ++ litP "and" ++ [wsP] ++ litP "suite" ++ [optCh 's'],
     "rooms_and_suites"),
  (litP "our" ++ [wsP] ++ litP "hotel" ++ [wsP,
     Atom.alt [litP "has", litP "features", litP "offers"],
     wsP, digP, wsP] ++ litP "room" ++ [optCh 's'], "our_hotel_has"),
  (litP "we" ++ [wsP,
     Atom.alt [litP "have", litP "offer", litP "feature"],
     wsP, digP, wsP] ++ litP "room" ++ [optCh 's'], "we_have"),
  (litP "the" ++ [wsP] ++ litP "hotel" ++ [wsP,
     Atom.alt [litP "has", litP "features", litP "offers"],
     wsP, digP, wsP] ++ litP "room" ++ [optCh 's'], "the_hotel_has"),
  -- Units & Apartments
  ([digP, wsP] ++ litP "einheiten", "einheiten"),
  ([digP, wsP] ++ litP "unit" ++ [optCh 's'], "units"),
  ([digP, wsP] ++ litP "ferienwohnunge" ++ [optCh 'n'], "ferienwohnungen"),
  ([digP, wsP] ++ litP "apartment" ++ [optCh 's'], "apartments"),
  ([digP, wsP] ++ litP "suite" ++ [optCh 's'], "suites"),
  ([digP, wsP] ++ litP "accommodation" ++ [optCh 's'], "accommodations"),
  -- Special formats
  (litP "zimmerzahl:" ++ [ws0P, digP], "zimmerzahl_label"),
  (litP "anzahl" ++ [wsP] ++ litP "zimmer:" ++ [ws0P, digP], "anzahl_label"),
  (litP "number" ++ [wsP] ++ litP "of" ++ [wsP] ++ litP "rooms:" ++ [ws0P, digP], "number_label"),
  (litP "rooms:" ++ [ws0P, digP], "rooms_label"),
  ([digP, wsP] ++ litP "zimmer" ++ [wsP] ++ litP "verfügbar", "verfuegbar"),
  ([digP, wsP] ++ litP "room" ++ [optCh 's', wsP] ++ litP "available", "available")
]

/-- The `found_counts` list of `_extract_room_count_enhanced`: lowercase
the text, run every pattern, convert every capture with `int`, keep the
values inside the sanity bound `1 ≤ v ≤ 500`, tagged with the pattern
name, in pattern-library order. -/
def foundCounts (htmlContent : String) : List (Nat × String) :=
  let lower := (lowerStr htmlContent).toList
  (roomPatterns.map (fun pn =>
    (findallD pn.1 lower).filterMap (fun m =>
      let rc := toNatD m
      if 1 ≤ rc ∧ rc ≤ 500 then some (rc, pn.2) else none))).flatten

/-- `Counter(values).most_common(1)[0][0]`: the fold keeps the current
best and replaces it only on a strictly larger multiplicity, so it
returns the value of maximal multiplicity in `L`, ties resolved in
favour of the value inserted (= occurring) first — exactly the Counter
insertion order plus the stability of `heapq.nlargest`. -/
def argmaxCnt (L : List Nat) (l : List Nat) (b : Nat) : Nat :=
  l.foldl (fun acc w => if L.count w > L.count acc then w else acc) b

/-- `_extract_room_count_enhanced` (the `soup` parameter of the source
is unused by the function body and therefore omitted): returns
(most frequent in-range value, name of the first pattern that produced
it), or `none` when no pattern matched in range. -/
def extractRoomCount (htmlContent : String) : Option (Nat × String) :=
  let found := foundCounts htmlContent
  match found with
  | [] => none
  | f :: _ =>
    let vs := found.map Prod.fst
    let most := argmaxCnt vs vs f.1
    let patName := ((found.find? (fun e => e.1 == most)).map Prod.snd).getD "unknown"
    some (most, patName)

/- ---------------------------------------------------------------- -/
/- Parsed-markup page model.                                        -/
/- ---------------------------------------------------------------- -/

/-- A `<script>` tag: `src` mirrors `script.get('src', '')` (empty
string when the attribute is absent), `body` mirrors `script.string`. -/
structure ScriptTag where
  src : String
  body : Option String
deriving DecidableEq

/-- An `<input>`/`<textarea>`/`<select>` inside a form. -/
structure InputTag where
  tagName : String
  typeAttr : Option String
  nameAttr : Option String
  placeholderAttr : Option String
deriving DecidableEq

/-- A `<form>` tag. -/
structure FormTag where
  actionAttr : Option String
  methodAttr : Option String
  inputs : List InputTag
deriving DecidableEq

/-- A page after HTML parsing: the pieces of markup the crawler reads.
`raw` is the raw `response.text` (used by the regex-based extractors);
the other fields are what BeautifulSoup lookups return on the parsed
tree.  `anchorHreflangs` records `hreflang` attributes on anchors — the
parser sees them, the crawler never reads them. -/
structure Page where
  titleText : Option String
  metaDescTag : Option (Option String)
  rootLang : Option String
  metaLangs : List String
  scripts : List ScriptTag
  iframeSrcs : List String
  forms : List FormTag
  anchorHrefs : List String
  anchorHreflangs : List String
  viewportContent : Option (Option String)
  stylesheetHrefs : List String
  raw : String
deriving DecidableEq

/- ---------------------------------------------------------------- -/
/- Chatbot Detector: `_detect_chatbot_strict`.                      -/
/- ---------------------------------------------------------------- -/

/-- `self.chatbot_signatures`, in insertion order. -/
def chatbotSignatures : List (String × List String) := [
  ("zendesk", ["zdassets.com", "zendesk.com/embeddable"]),
  ("tidio", ["tidio.co/script", "tidiochat"]),
  ("intercom", ["widget.intercom.io", "intercom.io/widget"]),
  ("drift", ["js.driftt.com", "drift.com/include"]),
  ("livechat", ["cdn.livechatinc.com", "livechatinc.com/tracking"]),
  ("freshchat", ["wchat.freshchat.com", "freshchat.com/js"]),
  ("tawk.to", ["embed.tawk.to"]),
  ("chatbot.com", ["chatbot.com/widget"]),
  ("hubspot", ["js.hs-scripts.com/conversations"]),
  ("crisp", ["client.crisp.chat"]),
  ("smartsupp", ["smartsupp.com/widget"])
]

/-- The `widget_patterns` table of STEP 2 (inline script bodies), in
insertion order. -/
def widgetPatterns : List (String × List String) := [
  ("zendesk", ["window.$zopim", "ze('webwidget'", "zopim.livechat"]),
  ("tidio", ["tidiochatapi", "document.tidiochat"]),
  ("intercom", ["window.intercom(", "intercom('boot'"]),
  ("drift", ["drift.load(", "drift.on("]),
  ("tawk.to", ["tawk_", "tawk.to"]),
  ("crisp", ["window.$crisp", "crisp.push"]),
  ("smartsupp", ["smartsupp(", "_smartsupp"])
]

/-- Result dictionary of `_detect_chatbot_strict`. -/
structure ChatbotInfo where
  has_chatbot : Bool
  chatbot_type : Option String
  signature_found : Option String
  detection_method : Option String
deriving DecidableEq

/-- STEP 1: for every script tag with a non-empty `src`, test every
vendor signature for substring containment; first hit wins. -/
def scanScriptSrc (scripts : List ScriptTag) : Option (String × String) :=
  scripts.findSome? (fun sc =>
    if sc.src ≠ "" then
      chatbotSignatures.findSome? (fun vp =>
        vp.2.findSome? (fun sig =>
          if substrOf sig sc.src then some (vp.1, sig) else none))
    else none)

/-- STEP 2: for every script tag with an inline body, lowercase the body
and test every widget pattern; first hit wins. -/
def scanInline (scripts : List ScriptTag) : Option (String × String) :=
  scripts.findSome? (fun sc =>
    match sc.body with
    | none => none
    | some b =>
      widgetPatterns.findSome? (fun vp =>
        vp.2.findSome? (fun w =>
          if substrOf w (lowerStr b) then some (vp.1, w) else none)))

/-- STEP 3: for every iframe with a non-empty `src`, test every vendor
signature; first hit wins. -/
def scanIframe (iframes : List String) : Option (String × String) :=
  iframes.findSome? (fun src =>
    if src ≠ "" then
      chatbotSignatures.findSome? (fun vp =>
        vp.2.findSome? (fun sig =>
          if substrOf sig src then some (vp.1, sig) else none))
    else none)

/-- `_detect_chatbot_strict`: the three scans in order, each returning
early on its first match; prose (`p.raw`) is never consulted. -/
def detectChatbotStrict (p : Page) : ChatbotInfo :=
  match scanScriptSrc p.scripts with
  | some (v, s) => ⟨true, some v, some s, some "script_src"⟩
  | none =>
    match scanInline p.scripts with
    | some (v, s) => ⟨true, some v, some s, some "inline_script"⟩
    | none =>
      match scanIframe p.iframeSrcs with
      | some (v, s) => ⟨true, some v, some s, some "iframe_embed"⟩
      | none => ⟨false, none, none, none⟩

/- ---------------------------------------------------------------- -/
/- Feature Extractors.                                              -/
/- ---------------------------------------------------------------- -/

/-- `_get_title`. -/
def getTitle (p : Page) : String := p.titleText.getD ""

/-- `_get_meta_description`. -/
def getMetaDescription (p : Page) : String :=
  match p.metaDescTag with
  | some c => c.getD ""
  | none => ""

/-- `_detect_languages`: `lang` on the root element (when truthy) plus
`lang` attributes on meta tags, each cut to two characters, de-duplicated
(`list(set(..))` — the Python set iteration order is unspecified, the
model picks a canonical order; only order-insensitive facts are proved
about it), defaulting to `["en"]`.  Anchors and `hreflang` are not read. -/
def detectLanguages (p : Page) : List String :=
  let fromRoot : List String :=
    match p.rootLang with
    | some l => if l ≠ "" then [take2 l] else []
    | none => []
  let langs := fromRoot ++ p.metaLangs.map take2
  if langs.isEmpty then ["en"] else langs.dedup

/-- One entry of the `_find_lead_forms` result. -/
structure LeadForm where
  action : String
  method : String
  inputs : List (String × String × String)
deriving DecidableEq

/-- `_find_lead_forms`: every form, inputs as (type|tag-name, name,
placeholder) triples, kept only when the input list is non-empty. -/
def findLeadForms (p : Page) : List LeadForm :=
  p.forms.filterMap (fun f =>
    let ins := f.inputs.map (fun i =>
      (i.typeAttr.getD i.tagName, i.nameAttr.getD "", i.placeholderAttr.getD ""))
    if ins.isEmpty then none
    else some ⟨f.actionAttr.getD "", upperStr (f.methodAttr.getD ""), ins⟩)

/-- `_count_pages`: number of distinct internal link targets. -/
def countPages (p : Page) : Nat :=
  ((p.anchorHrefs.filter (fun h => startsWithC "/" h || startsWithC "#" h)).dedup).length

/-- `_check_mobile`. -/
def checkMobile (p : Page) : Bool :=
  let fromSheets := p.stylesheetHrefs.any (fun h => substrOf "responsive" (lowerStr h))
  match p.viewportContent with
  | some c => if substrOf "width=device-width" (lowerStr (c.getD "")) then true else fromSheets
  | none => fromSheets

/- ---------------------------------------------------------------- -/
/- Contact info: `_find_contact_info` (regexes over the raw text).  -/
/- ---------------------------------------------------------------- -/

/-- local part class of the email regex. -/
def emailLocalC (c : Char) : Bool :=
  isAlnumC c || c == '.' || c == '_' || c == '%' || c == '+' || c == '-'

/-- domain class of the email regex. -/
def emailDomC (c : Char) : Bool := isAlnumC c || c == '.' || c == '-'

/-- the email regex of the source. -/
def emailPat : Pat :=
  [.many emailLocalC 1, .one (fun c => c == '@'), .many emailDomC 1,
   .one (fun c => c == '.'), .many isAlphaC 2]

/-- body class of the phone regex. -/
def phoneBodyC (c : Char) : Bool :=
  isDigitC c || isSpaceC c || c == '-' || c == '(' || c == ')'

/-- the phone regex of the source. -/
def phonePat : Pat :=
  [.optA (fun c => c == '+' || c == '('), .one isDigitC, .many phoneBodyC 7, .one isDigitC]

/-- `\w` plus `-` and `.` (ASCII model), for the social profile paths. -/
def socialPathC (c : Char) : Bool := isAlnumC c || c == '_' || c == '-' || c == '.'

/-- same with `/`, for the linkedin pattern. -/
def socialPathSlashC (c : Char) : Bool := socialPathC c || c == '/'

/-- `social_patterns`, in insertion order. -/
def socialPatterns : List (String × Pat) := [
  ("facebook", litP "facebook.com/" ++ [.many socialPathC 1]),
  ("instagram", litP "instagram.com/" ++ [.many socialPathC 1]),
  ("twitter", litP "twitter.com/" ++ [.many socialPathC 1]),
  ("linkedin", litP "linkedin.com/" ++ [.many socialPathSlashC 1])
]

/-- The `contact` dictionary. -/
structure ContactInfo where
  emails : List String
  phones : List String
  socialMedia : List String
deriving DecidableEq

/-- `_find_contact_info`: regex-extracted emails and phones,
de-duplicated with `list(set(..))` (unspecified order: the model picks a
canonical order, proofs use only order-insensitive facts), plus social
links prefixed with `https://`, platform by platform, not de-duplicated. -/
def findContactInfo (htmlContent : String) : ContactInfo :=
  let cs := htmlContent.toList
  { emails := (findallW emailPat cs).dedup
    phones := (findallW phonePat cs).dedup
    socialMedia := (socialPatterns.map (fun sp =>
      (findallW sp.2 cs).map (fun m => "https://" ++ m))).flatten }

/- ---------------------------------------------------------------- -/
/- Fetching and the crawl orchestrator (`crawl`,                    -/
/- `_crawl_subpages_for_room_count`).                               -/
/- ---------------------------------------------------------------- -/

/-- Outcome of one `requests.get(url, timeout=..)` call: a response
(any status code — `raise_for_status` is a separate step), or a raised
exception.  `exnTimeout` and `exnConn` model `requests` exceptions
(`Timeout`, connection-level `RequestException`s); `exnOther` models an
exception outside the `requests` hierarchy. -/
inductive FetchResp where
  | resp (status : Nat) (page : Page) (elapsedMs : Nat) (finalUrl : String)
  | exnTimeout
  | exnConn (msg : String)
  | exnOther (msg : String)
deriving DecidableEq

/-- The network, as a pure oracle from (url, timeout in seconds) to the
outcome of fetching that url with that timeout. -/
abbrev Oracle := String → Nat → FetchResp

/-- `timeout: int = 30`, the constructor default. -/
def defaultTimeout : Nat := 30

/-- The hard-coded `timeout=10` used for every subpage fetch. -/
def subpageTimeout : Nat := 10

/-- `self.room_count_subpages` (priority order). -/
def roomCountSubpages : List String := [
  "/zimmer", "/rooms", "/unterkuenfte", "/accommodations", "/ueber-uns",
  "/about", "/hotel", "/das-hotel", "/the-hotel", "/ausstattung",
  "/facilities", "/unser-haus", "/our-house"
]

/-- The `analysis` dictionary returned on a successful crawl. -/
structure CrawlReport where
  url : String
  finalUrl : String
  statusCode : Nat
  title : String
  metaDescription : String
  languages : List String
  hasChatbot : Bool
  chatbotType : Option String
  chatbotDetails : ChatbotInfo
  roomCount : Option Nat
  roomCountSource : Option String
  leadForms : List LeadForm
  pagesCount : Nat
  mobileResponsive : Bool
  contactInfo : ContactInfo
  responseTimeMs : Nat
deriving DecidableEq

/-- Result of `crawl`: the report, or one of the error dictionaries
`{"url": .., "error": .., "error_message": ..}` built in the `except`
clauses. -/
inductive CrawlResult where
  | report (r : CrawlReport)
  | fetchError (url : String) (error : String) (errorMessage : String)
deriving DecidableEq

/-- The report when the result is one, `none` on an error object. -/
def reportOf : CrawlResult → Option CrawlReport
  | .report r => some r
  | .fetchError _ _ _ => none

/-- The `error` field of an error object. -/
def errorKindOf : CrawlResult → Option String
  | .report _ => none
  | .fetchError _ e _ => some e

/-- Python truthiness of the extracted `room_count`. -/
def truthyRC : Option (Nat × String) → Bool
  | none => false
  | some (v, _) => v != 0

/-- The loop body of `_crawl_subpages_for_room_count`: `checked` is
`pages_checked`.  A status-200 page is scanned, and counts toward the
cap only when it yields no value; a non-200 page is skipped without
counting; `requests` exceptions (`Timeout`, connection errors) are
swallowed by the inner `except RequestException` and the loop continues;
an exception outside `requests` propagates (`.error`). -/
def subLoop (o : Oracle) (base : String) (maxPages : Nat) :
    List String → Nat → Except String (Option (Nat × String))
  | [], _ => .ok none
  | sp :: rest, checked =>
    if maxPages ≤ checked then .ok none
    else
      match o (base ++ sp) subpageTimeout with
      | .exnTimeout => subLoop o base maxPages rest checked
      | .exnConn _ => subLoop o base maxPages rest checked
      | .exnOther m => .error m
      | .resp status page _ _ =>
        if status = 200 then
          match extractRoomCount page.raw with
          | some (v, _) =>
            if v ≠ 0 then .ok (some (v, base ++ sp))
            else subLoop o base maxPages rest (checked + 1)
          | none => subLoop o base maxPages rest (checked + 1)
        else subLoop o base maxPages rest checked

/-- `_crawl_subpages_for_room_count(url)` with its default
`max_pages = 3`. -/
def crawlSubpages (o : Oracle) (baseUrl : String) : Except String (Option (Nat × String)) :=
  subLoop o (rstripSlash baseUrl) 3 roomCountSubpages 0

/-- `message` of the `HTTPError` raised by `raise_for_status` (modelled:
the claims below depend only on which `except` clause catches it, not on
the exact text). -/
def httpErrorMsg (status : Nat) (url : String) : String :=
  toString status ++ " error for url: " ++ url

/-- `crawl(url)`: fetch the homepage, `raise_for_status`, build the
analysis from the parsed page, detect the chatbot, extract the room
count, and fall back to the subpage search when the homepage yields
none.  Each `except` clause of the source maps one exception class to
one error object. -/
def crawl (o : Oracle) (timeout : Nat) (url : String) : CrawlResult :=
  match o url timeout with
  | .exnTimeout =>
    .fetchError url "Timeout" ("Request timed out after " ++ toString timeout ++ " seconds")
  | .exnConn m => .fetchError url "RequestException" m
  | .exnOther m => .fetchError url "UnexpectedException" m
  | .resp status page elapsedMs finalUrl =>
    if 400 ≤ status ∧ status < 600 then
      -- raise_for_status: HTTPError is a RequestException
      .fetchError url "RequestException" (httpErrorMsg status url)
    else
      let cb := detectChatbotStrict page
      let rc0 := extractRoomCount page.raw
      let base : CrawlReport :=
        { url := url, finalUrl := finalUrl, statusCode := status,
          title := getTitle page, metaDescription := getMetaDescription page,
          languages := detectLanguages page,
          hasChatbot := cb.has_chatbot, chatbotType := cb.chatbot_type,
          chatbotDetails := cb,
          roomCount := none, roomCountSource := none,
          leadForms := findLeadForms page, pagesCount := countPages page,
          mobileResponsive := checkMobile page,
          contactInfo := findContactInfo page.raw,
          responseTimeMs := elapsedMs }
      if truthyRC rc0 then
        .report { base with roomCount := rc0.map Prod.fst, roomCountSource := rc0.map Prod.snd }
      else
        match crawlSubpages o url with
        | .error m => .fetchError url "UnexpectedException" m
        | .ok res =>
          .report { base with
            roomCount := res.map Prod.fst,
            roomCountSource := if truthyRC res then res.map Prod.snd else none }

/- ---------------------------------------------------------------- -/
/- Helper lemmas.                                                   -/
/- ---------------------------------------------------------------- -/

/-- Every entry of `found_counts` passed the sanity bound. -/
theorem foundCounts_range (html : String) :
    ∀ e ∈ foundCounts html, 1 ≤ e.1 ∧ e.1 ≤ 500 := by
  intro e he
  simp only [foundCounts, List.mem_flatten, List.mem_map] at he
  obtain ⟨l, ⟨pn, hpn, rfl⟩, hel⟩ := he
  simp only [List.mem_filterMap] at hel
  obtain ⟨m, _, hsome⟩ := hel
  by_cases hc : 1 ≤ toNatD m ∧ toNatD m ≤ 500
  · simp only [if_pos hc] at hsome
    cases hsome
    exact hc
  · simp only [if_neg hc] at hsome
    cases hsome

/-- Characterisation of the `Counter.most_common(1)` fold: the result is
the initial value when nothing strictly beats it, and otherwise the
first list element whose multiplicity strictly exceeds everything
before it (and is maximal overall). -/
theorem argmaxCnt_spec (L : List Nat) :
    ∀ (l : List Nat) (b : Nat),
      (argmaxCnt L l b = b ∧ ∀ w ∈ l, L.count w ≤ L.count b) ∨
      (∃ l1 l2, l = l1 ++ argmaxCnt L l b :: l2 ∧
        L.count b < L.count (argmaxCnt L l b) ∧
        (∀ w ∈ l1, L.count w < L.count (argmaxCnt L l b)) ∧
        (∀ w ∈ l, L.count w ≤ L.count (argmaxCnt L l b))) := by
  intro l
  induction l with
  | nil =>
    intro b
    exact Or.inl ⟨rfl, by intro w hw; cases hw⟩
  | cons w t ih =>
    intro b
    have h1 : argmaxCnt L (w :: t) b
        = argmaxCnt L t (if L.count w > L.count b then w else b) := rfl
    by_cases hgt : L.count w > L.count b
    · rw [if_pos hgt] at h1
      rcases ih w with ⟨he, hall⟩ | ⟨l1, l2, heq, hbl, hpre, hall⟩
      · refine Or.inr ⟨[], t, ?_, ?_, ?_, ?_⟩
        · rw [h1, he]; exact (List.nil_append _).symm
        · rw [h1, he]; exact hgt
        · intro x hx; cases hx
        · intro x hx
          rw [h1, he]
          rcases List.mem_cons.mp hx with rfl | hx
          · exact le_refl _
          · exact hall x hx
      · refine Or.inr ⟨w :: l1, l2, ?_, ?_, ?_, ?_⟩
        · rw [h1]; exact congrArg (fun x => w :: x) heq
        · rw [h1]; exact lt_trans hgt hbl
        · intro x hx
          rw [h1]
          rcases List.mem_cons.mp hx with rfl | hx
          · exact hbl
          · exact hpre x hx
        · intro x hx
          rw [h1]
          rcases List.mem_cons.mp hx with rfl | hx
          · exact le_of_lt hbl
          · exact hall x hx
    · rw [if_neg hgt] at h1
      rcases ih b with ⟨he, hall⟩ | ⟨l1, l2, heq, hbl, hpre, hall⟩
      · refine Or.inl ⟨h1.trans he, ?_⟩
        intro x hx
        rcases List.mem_cons.mp hx with rfl | hx
        · exact not_lt.mp hgt
        · exact hall x hx
      · refine Or.inr ⟨w :: l1, l2, ?_, ?_, ?_, ?_⟩
        · rw [h1]; exact congrArg (fun x => w :: x) heq
        · rw [h1]; exact hbl
        · intro x hx
          rw [h1]
          rcases List.mem_cons.mp hx with rfl | hx
          · exact lt_of_le_of_lt (not_lt.mp hgt) hbl
          · exact hpre x hx
        · intro x hx
          rw [h1]
          rcases List.mem_cons.mp hx with rfl | hx
          · exact le_trans (not_lt.mp hgt) (le_of_lt hbl)
          · exact hall x hx

/-- What `extractRoomCount` returns: the value is the most frequent one
among all in-range pattern hits (ties resolved in favour of the value
occurring first, i.e. the first-encountered pattern in library order),
and the pattern name is the one of the first hit carrying that value. -/
theorem extractRoomCount_spec (html : String) (v : Nat) (pname : String)
    (h : extractRoomCount html = some (v, pname)) :
    (∃ l1 l2, (foundCounts html).map Prod.fst = l1 ++ v :: l2 ∧
       ∀ w ∈ l1, ((foundCounts html).map Prod.fst).count w
         < ((foundCounts html).map Prod.fst).count v) ∧
    (∀ w ∈ (foundCounts html).map Prod.fst,
       ((foundCounts html).map Prod.fst).count w
         ≤ ((foundCounts html).map Prod.fst).count v) ∧
    (∃ e, (foundCounts html).find? (fun e => e.1 == v) = some e ∧ e.2 = pname) := by
  rcases hf : foundCounts html with _ | ⟨f, t⟩
  · rw [extractRoomCount, hf] at h
    cases h
  · rw [extractRoomCount, hf] at h
    simp only [Option.some.injEq, Prod.mk.injEq] at h
    obtain ⟨hv, hp⟩ := h
    have hdec := argmaxCnt_spec ((f :: t).map Prod.fst) ((f :: t).map Prod.fst) f.1
    rw [hv] at hdec hp
    have hmemv : v ∈ (f :: t).map Prod.fst := by
      rcases hdec with ⟨he, _⟩ | ⟨l1, l2, heq, _, _, _⟩
      · exact he ▸ List.mem_map.mpr ⟨f, List.mem_cons_self f t, rfl⟩
      · rw [heq]
        exact List.mem_append.mpr (Or.inr (List.mem_cons_self _ _))
    refine ⟨?_, ?_, ?_⟩
    · rcases hdec with ⟨he, hall⟩ | ⟨l1, l2, heq, _, hpre, _⟩
      · refine ⟨[], t.map Prod.fst, ?_, ?_⟩
        · simp only [List.map_cons, List.nil_append]
          rw [← he]
        · intro w hw; cases hw
      · exact ⟨l1, l2, heq, hpre⟩
    · rcases hdec with ⟨he, hall⟩ | ⟨l1, l2, heq, _, _, hall⟩
      · intro w hw
        rw [he]
        exact hall w hw
      · exact hall
    · have hsome : ((f :: t).find? (fun e => e.1 == v)).isSome = true := by
        rw [List.find?_isSome]
        obtain ⟨e, hmem, he⟩ := List.mem_map.mp hmemv
        exact ⟨e, hmem, by simp [he]⟩
      obtain ⟨e, hfind⟩ := Option.isSome_iff_exists.mp hsome
      refine ⟨e, hfind, ?_⟩
      rw [hfind] at hp
      simpa using hp

/-- If the extractor returns a value it respects the sanity bound. -/
theorem extractRoomCount_range (html : String) (v : Nat) (pname : String)
    (h : extractRoomCount html = some (v, pname)) : 1 ≤ v ∧ v ≤ 500 := by
  obtain ⟨⟨l1, l2, heq, _⟩, _, _⟩ := extractRoomCount_spec html v pname h
  have hv : v ∈ (foundCounts html).map Prod.fst := by
    rw [heq]; exact List.mem_append.mpr (Or.inr (List.mem_cons_self _ _))
  obtain ⟨e, hmem, he⟩ := List.mem_map.mp hv
  rw [← he]
  exact foundCounts_range html e hmem

/- ---------------------------------------------------------------- -/
/- C3 / C4: the Numeric Fact Extractor.                             -/
/- ---------------------------------------------------------------- -/

/-- C3: whenever the Numeric Fact Extractor returns a value, that value
lies in `[1, 500]`; out-of-range matches are never returned.  On a page
containing "Baujahr 1890" and "25 Zimmer" it returns 25 and can not
return 1890. -/
theorem c3_sanity_bounds :
    (∀ (html : String) (v : Nat) (pname : String),
        extractRoomCount html = some (v, pname) → 1 ≤ v ∧ v ≤ 500) ∧
    extractRoomCount "Baujahr 1890 und das Haus hat 25 Zimmer" = some (25, "basic_zimmer") ∧
    (∀ pname : String,
        extractRoomCount "Baujahr 1890 und das Haus hat 25 Zimmer" ≠ some (1890, pname)) := by
  refine ⟨fun html v pname h => extractRoomCount_range html v pname h, by decide, ?_⟩
  intro pname h
  rw [show extractRoomCount "Baujahr 1890 und das Haus hat 25 Zimmer"
      = some (25, "basic_zimmer") from by decide] at h
  simp at h

/-- Witness for C3 at the concrete page of the claim. -/
theorem c3_sanity_bounds_witness : 1 ≤ 25 ∧ 25 ≤ 500 :=
  c3_sanity_bounds.1 "Baujahr 1890 und das Haus hat 25 Zimmer" 25 "basic_zimmer" (by decide)

/-- C4: the extractor returns `none` exactly when no pattern yields an
in-range match; otherwise it returns the value of maximal frequency
across all in-range pattern hits, ties broken by first occurrence in
pattern-library order, paired with the name of the first hit carrying
that value; "20 Zimmer" twice and "5 Suiten" once resolves to 20. -/
theorem c4_frequency_vote :
    (∀ html : String, extractRoomCount html = none ↔ foundCounts html = []) ∧
    (∀ (html : String) (v : Nat) (pname : String),
        extractRoomCount html = some (v, pname) →
        (∀ w ∈ (foundCounts html).map Prod.fst,
            ((foundCounts html).map Prod.fst).count w
              ≤ ((foundCounts html).map Prod.fst).count v) ∧
        (∃ l1 l2, (foundCounts html).map Prod.fst = l1 ++ v :: l2 ∧
            ∀ w ∈ l1, ((foundCounts html).map Prod.fst).count w
              < ((foundCounts html).map Prod.fst).count v) ∧
        (∃ e, (foundCounts html).find? (fun e => e.1 == v) = some e ∧ e.2 = pname)) ∧
    extractRoomCount "20 Zimmer und 20 Zimmer und 5 Suiten" = some (20, "basic_zimmer") := by
  refine ⟨?_, ?_, by decide⟩
  · intro html
    constructor
    · intro h
      rcases hf : foundCounts html with _ | ⟨f, t⟩
      · rfl
      · rw [extractRoomCount, hf] at h
        cases h
    · intro h
      rw [extractRoomCount, h]
  · intro html v pname h
    obtain ⟨hfirst, hmax, hfind⟩ := extractRoomCount_spec html v pname h
    exact ⟨hmax, hfirst, hfind⟩

/-- Witness for C4 at the concrete page of the claim. -/
theorem c4_frequency_vote_witness :
    ∀ w ∈ (foundCounts "20 Zimmer und 20 Zimmer und 5 Suiten").map Prod.fst,
      ((foundCounts "20 Zimmer und 20 Zimmer und 5 Suiten").map Prod.fst).count w
        ≤ ((foundCounts "20 Zimmer und 20 Zimmer und 5 Suiten").map Prod.fst).count 20 :=
  (c4_frequency_vote.2.1 "20 Zimmer und 20 Zimmer und 5 Suiten" 20 "basic_zimmer" (by decide)).1

/- ---------------------------------------------------------------- -/
/- C1 / C2: the Chatbot Detector.                                   -/
/- ---------------------------------------------------------------- -/

/-- Unpacking a STEP-1 match into its structural evidence. -/
theorem scanScriptSrc_sound (l : List ScriptTag) (r : String × String)
    (h : scanScriptSrc l = some r) :
    ∃ sc ∈ l, sc.src ≠ "" ∧ ∃ vp ∈ chatbotSignatures, ∃ sig ∈ vp.2,
      substrOf sig sc.src = true ∧ r = (vp.1, sig) := by
  obtain ⟨sc, hsc, hinner⟩ := List.exists_of_findSome?_eq_some h
  by_cases hsrc : sc.src ≠ ""
  · rw [if_pos hsrc] at hinner
    obtain ⟨vp, hvp, hinner2⟩ := List.exists_of_findSome?_eq_some hinner
    obtain ⟨sig, hsig, hif⟩ := List.exists_of_findSome?_eq_some hinner2
    by_cases hsub : substrOf sig sc.src = true
    · rw [if_pos hsub] at hif
      cases hif
      exact ⟨sc, hsc, hsrc, vp, hvp, sig, hsig, hsub, rfl⟩
    · rw [if_neg hsub] at hif
      cases hif
  · rw [if_neg hsrc] at hinner
    cases hinner

/-- Unpacking a STEP-2 match into its structural evidence. -/
theorem scanInline_sound (l : List ScriptTag) (r : String × String)
    (h : scanInline l = some r) :
    ∃ sc ∈ l, ∃ b, sc.body = some b ∧ ∃ vp ∈ widgetPatterns, ∃ w ∈ vp.2,
      substrOf w (lowerStr b) = true ∧ r = (vp.1, w) := by
  obtain ⟨sc, hsc, hinner⟩ := List.exists_of_findSome?_eq_some h
  rcases hb : sc.body with _ | b
  · rw [hb] at hinner
    cases hinner
  · rw [hb] at hinner
    obtain ⟨vp, hvp, hinner2⟩ := List.exists_of_findSome?_eq_some hinner
    obtain ⟨w, hw, hif⟩ := List.exists_of_findSome?_eq_some hinner2
    by_cases hsub : substrOf w (lowerStr b) = true
    · rw [if_pos hsub] at hif
      cases hif
      exact ⟨sc, hsc, b, hb, vp, hvp, w, hw, hsub, rfl⟩
    · rw [if_neg hsub] at hif
      cases hif

/-- Unpacking a STEP-3 match into its structural evidence. -/
theorem scanIframe_sound (l : List String) (r : String × String)
    (h : scanIframe l = some r) :
    ∃ src ∈ l, src ≠ "" ∧ ∃ vp ∈ chatbotSignatures, ∃ sig ∈ vp.2,
      substrOf sig src = true ∧ r = (vp.1, sig) := by
  obtain ⟨src, hsrc0, hinner⟩ := List.exists_of_findSome?_eq_some h
  by_cases hsrc : src ≠ ""
  · rw [if_pos hsrc] at hinner
    obtain ⟨vp, hvp, hinner2⟩ := List.exists_of_findSome?_eq_some hinner
    obtain ⟨sig, hsig, hif⟩ := List.exists_of_findSome?_eq_some hinner2
    by_cases hsub : substrOf sig src = true
    · rw [if_pos hsub] at hif
      cases hif
      exact ⟨src, hsrc0, hsrc, vp, hvp, sig, hsig, hsub, rfl⟩
    · rw [if_neg hsub] at hif
      cases hif
  · rw [if_neg hsrc] at hinner
    cases hinner

/-- A page with chat-related prose but no embed. -/
def noBotPage : Page :=
  { titleText := some "Hotel ohne Bot", metaDescTag := none, rootLang := some "de",
    metaLangs := [], scripts := [], iframeSrcs := [], forms := [],
    anchorHrefs := [], anchorHreflangs := [], viewportContent := none,
    stylesheetHrefs := [],
    raw := "<p>Wir haben keinen Chatbot. we do not have a chatbot</p>" }

/-- C1: detection fires only on structural evidence — a vendor signature
in a script `src`, a widget pattern in an inline script body, or a
vendor signature in an iframe `src`; the page text (`raw`) is never
consulted, and a page whose prose mentions chatbots but which has no
embed yields no detection. -/
theorem c1_embed_only_detection :
    (∀ p : Page, (detectChatbotStrict p).has_chatbot = true →
      (∃ sc ∈ p.scripts, sc.src ≠ "" ∧ ∃ vp ∈ chatbotSignatures, ∃ sig ∈ vp.2,
          substrOf sig sc.src = true) ∨
      (∃ sc ∈ p.scripts, ∃ b, sc.body = some b ∧ ∃ vp ∈ widgetPatterns, ∃ w ∈ vp.2,
          substrOf w (lowerStr b) = true) ∨
      (∃ src ∈ p.iframeSrcs, src ≠ "" ∧ ∃ vp ∈ chatbotSignatures, ∃ sig ∈ vp.2,
          substrOf sig src = true)) ∧
    (∀ (p : Page) (t : String), detectChatbotStrict { p with raw := t } = detectChatbotStrict p) ∧
    detectChatbotStrict noBotPage = ⟨false, none, none, none⟩ := by
  refine ⟨?_, fun p t => rfl, by decide⟩
  intro p hdet
  unfold detectChatbotStrict at hdet
  rcases h1 : scanScriptSrc p.scripts with _ | r1
  · rw [h1] at hdet
    rcases h2 : scanInline p.scripts with _ | r2
    · rw [h2] at hdet
      rcases h3 : scanIframe p.iframeSrcs with _ | r3
      · rw [h3] at hdet
        cases hdet
      · obtain ⟨src, hm, hne, vp, hvp, sig, hsig, hsub, _⟩ := scanIframe_sound _ _ h3
        exact Or.inr (Or.inr ⟨src, hm, hne, vp, hvp, sig, hsig, hsub⟩)
    · obtain ⟨sc, hm, b, hb, vp, hvp, w, hw, hsub, _⟩ := scanInline_sound _ _ h2
      exact Or.inr (Or.inl ⟨sc, hm, b, hb, vp, hvp, w, hw, hsub⟩)
  · obtain ⟨sc, hm, hne, vp, hvp, sig, hsig, hsub, _⟩ := scanScriptSrc_sound _ _ h1
    exact Or.inl ⟨sc, hm, hne, vp, hvp, sig, hsig, hsub⟩

/-- A page whose only chatbot trace is a zendesk script tag. -/
def zendeskPage : Page :=
  { noBotPage with
    scripts := [⟨"https://static.zdassets.com/ekr/snippet.js", none⟩], raw := "" }

/-- Witness for C1: a page that does get a detection provides the
structural evidence. -/
theorem c1_embed_only_detection_witness :
    (∃ sc ∈ zendeskPage.scripts, sc.src ≠ "" ∧ ∃ vp ∈ chatbotSignatures, ∃ sig ∈ vp.2,
        substrOf sig sc.src = true) ∨
    (∃ sc ∈ zendeskPage.scripts, ∃ b, sc.body = some b ∧ ∃ vp ∈ widgetPatterns, ∃ w ∈ vp.2,
        substrOf w (lowerStr b) = true) ∨
    (∃ src ∈ zendeskPage.iframeSrcs, src ≠ "" ∧ ∃ vp ∈ chatbotSignatures, ∃ sig ∈ vp.2,
        substrOf sig src = true) :=
  c1_embed_only_detection.1 zendeskPage (by decide)

/-- A page carrying a crisp signature via script `src` and a zendesk
signature via iframe `src`. -/
def crossVendorPage : Page :=
  { noBotPage with
    scripts := [⟨"https://client.crisp.chat/l.js", none⟩],
    iframeSrcs := ["https://static.zdassets.com/ekr/frame.html"], raw := "" }

/-- C2: the three scans run in the fixed order script-src, inline-script,
iframe-src, each short-circuiting on its first match, so a script-src
match decides the result whatever the other scans would say; on a page
with a crisp script-src signature and a zendesk iframe-src signature,
crisp via `script_src` is reported.  The detector is a pure function of
the page, returning exactly one `ChatbotInfo`. -/
theorem c2_method_priority :
    (∀ (p : Page) (v s : String), scanScriptSrc p.scripts = some (v, s) →
        detectChatbotStrict p = ⟨true, some v, some s, some "script_src"⟩) ∧
    (∀ (p : Page) (v s : String), scanScriptSrc p.scripts = none →
        scanInline p.scripts = some (v, s) →
        detectChatbotStrict p = ⟨true, some v, some s, some "inline_script"⟩) ∧
    (∀ (p : Page) (v s : String), scanScriptSrc p.scripts = none →
        scanInline p.scripts = none → scanIframe p.iframeSrcs = some (v, s) →
        detectChatbotStrict p = ⟨true, some v, some s, some "iframe_embed"⟩) ∧
    detectChatbotStrict crossVendorPage
      = ⟨true, some "crisp", some "client.crisp.chat", some "script_src"⟩ := by
  refine ⟨?_, ?_, ?_, by decide⟩
  · intro p v s h
    unfold detectChatbotStrict
    rw [h]
  · intro p v s h1 h2
    unfold detectChatbotStrict
    rw [h1, h2]
  · intro p v s h1 h2 h3
    unfold detectChatbotStrict
    rw [h1, h2, h3]

/-- Witness for C2 at the two-vendor page. -/
theorem c2_method_priority_witness :
    detectChatbotStrict crossVendorPage
      = ⟨true, some "crisp", some "client.crisp.chat", some "script_src"⟩ :=
  c2_method_priority.1 crossVendorPage "crisp" "client.crisp.chat" (by decide)

/- ---------------------------------------------------------------- -/
/- C9: language detection.                                          -/
/- ---------------------------------------------------------------- -/

/-- A page whose only language marker is an `hreflang` attribute. -/
def hreflangOnlyPage : Page :=
  { noBotPage with rootLang := none, metaLangs := [], anchorHreflangs := ["fr"], raw := "" }

/-- C9 counterexample: the code ignores `hreflang` values on anchors
(and anchor text/href altogether), so a page whose only language marker
is `hreflang="fr"` yields the default `["en"]`, not a set containing
"fr" — the claimed union over hreflang values and the keyword/path table
does not hold. -/
theorem c9_counterexample :
    detectLanguages hreflangOnlyPage = ["en"] ∧ "fr" ∉ detectLanguages hreflangOnlyPage := by
  decide

/-- C9 as amended: language detection returns the de-duplicated union of
the root element's `lang` attribute (first two characters, when the
attribute is present and non-empty) and the `lang` attributes on meta
tags (first two characters); anchors — their `hreflang`, text and href —
are not consulted; when nothing is found the single-element default
`["en"]` is returned. -/
theorem c9_languages_amended :
    (∀ p : Page, (p.rootLang = none ∨ p.rootLang = some "") → p.metaLangs = [] →
        detectLanguages p = ["en"]) ∧
    (∀ (p : Page) (hl : List String),
        detectLanguages { p with anchorHreflangs := hl } = detectLanguages p) ∧
    (∀ (p : Page) (hr : List String),
        detectLanguages { p with anchorHrefs := hr } = detectLanguages p) ∧
    (∀ (p : Page) (l : String), p.rootLang = some l → l ≠ "" →
        take2 l ∈ detectLanguages p) ∧
    (∀ (p : Page) (lm : String), lm ∈ p.metaLangs → take2 lm ∈ detectLanguages p) := by
  refine ⟨?_, fun p hl => rfl, fun p hr => rfl, ?_, ?_⟩
  · intro p h hm
    rcases h with h | h <;> simp [detectLanguages, h, hm]
  · intro p l h hl
    simp only [detectLanguages, h]
    rw [if_pos hl]
    rw [if_neg (by simp)]
    exact List.mem_dedup.mpr (List.mem_cons_self _ _)
  · intro p lm hm
    simp only [detectLanguages]
    have hmem : take2 lm ∈
        (match p.rootLang with
          | some l => if l ≠ "" then [take2 l] else []
          | none => []) ++ p.metaLangs.map take2 :=
      List.mem_append_right _ (List.mem_map.mpr ⟨lm, hm, rfl⟩)
    have hne : ¬ ((match p.rootLang with
          | some l => if l ≠ "" then [take2 l] else []
          | none => []) ++ p.metaLangs.map take2).isEmpty = true := by
      rw [List.isEmpty_iff]
      intro he
      rw [he] at hmem
      cases hmem
    rw [if_neg hne]
    exact List.mem_dedup.mpr hmem

/-- Witness for C9: a German-tagged page keeps its root language. -/
theorem c9_languages_amended_witness : take2 "de" ∈ detectLanguages noBotPage :=
  c9_languages_amended.2.2.2.1 noBotPage "de" rfl (by decide)

/- ---------------------------------------------------------------- -/
/- C8: contact info.                                                -/
/- ---------------------------------------------------------------- -/

/-- `listPrefixOf` accepts the left part of a concatenation. -/
theorem listPrefixOf_append_self (p q : List Char) : listPrefixOf p (p ++ q) = true := by
  induction p with
  | nil => rfl
  | cons c cs ih => simp [listPrefixOf, ih]

/-- `startsWithC` accepts a prepended prefix. -/
theorem startsWithC_append (p m : String) : startsWithC p (p ++ m) = true := by
  unfold startsWithC
  rw [show (p ++ m).toList = p.toList ++ m.toList from String.data_append p m]
  exact listPrefixOf_append_self _ _

/-- The raw text used for the C8 counterexample: one placeholder email,
three real ones, one facebook profile link. -/
def rawC8 : String := "test@example.com a@b.de c@d.de e@f.de facebook.com/hotelx"

/-- C8 counterexample: the code performs no placeholder filtering and no
top-N capping — `test@example.com` is reported, and all four distinct
emails are returned (more than the claimed cap of 3). -/
theorem c8_counterexample :
    "test@example.com" ∈ (findContactInfo rawC8).emails ∧
    3 < (findContactInfo rawC8).emails.length := by
  decide

/-- C8 as amended: contact-info extraction returns de-duplicated emails
and phone numbers and the social-profile URLs of the per-platform
pattern table prefixed with `https://`; it applies no placeholder filter
and no per-category cap, so the output size is unbounded in the page
content. -/
theorem c8_contact_info_amended :
    (∀ raw : String, (findContactInfo raw).emails.Nodup) ∧
    (∀ raw : String, (findContactInfo raw).phones.Nodup) ∧
    (∀ raw u : String, u ∈ (findContactInfo raw).socialMedia →
        startsWithC "https://" u = true) := by
  refine ⟨fun raw => List.nodup_dedup _, fun raw => List.nodup_dedup _, ?_⟩
  intro raw u hu
  simp only [findContactInfo, List.mem_flatten, List.mem_map] at hu
  obtain ⟨l, ⟨sp, hsp, rfl⟩, hul⟩ := hu
  obtain ⟨m, hm, rfl⟩ := List.mem_map.mp hul
  exact startsWithC_append "https://" m

/-- Witness for C8: the facebook link of the concrete page is prefixed. -/
theorem c8_contact_info_amended_witness :
    startsWithC "https://" "https://facebook.com/hotelx" = true :=
  c8_contact_info_amended.2.2 rawC8 "https://facebook.com/hotelx" (by decide)

/- ---------------------------------------------------------------- -/
/- Crawl-level helper lemmas and concrete fixtures.                 -/
/- ---------------------------------------------------------------- -/

/-- Unfolding of one subpage-loop step. -/
theorem subLoop_cons (o : Oracle) (base : String) (maxP : Nat) (sp : String)
    (rest : List String) (checked : Nat) :
    subLoop o base maxP (sp :: rest) checked =
      (if maxP ≤ checked then .ok none
       else
         match o (base ++ sp) subpageTimeout with
         | .exnTimeout => subLoop o base maxP rest checked
         | .exnConn _ => subLoop o base maxP rest checked
         | .exnOther m => .error m
         | .resp status page _ _ =>
           if status = 200 then
             match extractRoomCount page.raw with
             | some (v, _) =>
               if v ≠ 0 then .ok (some (v, base ++ sp))
               else subLoop o base maxP rest (checked + 1)
             | none => subLoop o base maxP rest (checked + 1)
           else subLoop o base maxP rest checked) := rfl

/-- A value returned by the subpage search respects the sanity bound. -/
theorem subLoop_ok_some_pos (o : Oracle) (base : String) (maxP : Nat) :
    ∀ (l : List String) (checked v : Nat) (u : String),
      subLoop o base maxP l checked = .ok (some (v, u)) → 1 ≤ v := by
  intro l
  induction l with
  | nil =>
    intro checked v u h
    simp [subLoop] at h
  | cons sp rest ih =>
    intro checked v u h
    rw [subLoop_cons] at h
    by_cases hc : maxP ≤ checked
    · rw [if_pos hc] at h
      simp at h
    · rw [if_neg hc] at h
      rcases ho : o (base ++ sp) subpageTimeout with ⟨status, page, ems, fu⟩ | _ | m | m <;>
        rw [ho] at h <;> dsimp only at h
      · by_cases hs : status = 200
        · rw [if_pos hs] at h
          rcases hrc : extractRoomCount page.raw with _ | ⟨v', pn⟩ <;> rw [hrc] at h <;>
            dsimp only at h
          · exact ih _ _ _ h
          · by_cases hv : v' ≠ 0
            · rw [if_pos hv] at h
              simp only [Except.ok.injEq, Option.some.injEq, Prod.mk.injEq] at h
              rw [← h.1]
              exact (extractRoomCount_range page.raw v' pn hrc).1
            · rw [if_neg hv] at h
              exact ih _ _ _ h
        · rw [if_neg hs] at h
          exact ih _ _ _ h
      · exact ih _ _ _ h
      · exact ih _ _ _ h
      · simp at h

/-- Oracles agreeing on the subpage urls drive the loop identically. -/
theorem subLoop_congr (o1 o2 : Oracle) (base : String) (maxP : Nat) :
    ∀ (l : List String) (checked : Nat),
      (∀ sp ∈ l, o1 (base ++ sp) subpageTimeout = o2 (base ++ sp) subpageTimeout) →
      subLoop o1 base maxP l checked = subLoop o2 base maxP l checked := by
  intro l
  induction l with
  | nil => intro checked hagree; rfl
  | cons sp rest ih =>
    intro checked hagree
    have hrest : ∀ s ∈ rest, o1 (base ++ s) subpageTimeout = o2 (base ++ s) subpageTimeout :=
      fun s hs => hagree s (List.mem_cons_of_mem _ hs)
    rw [subLoop_cons, subLoop_cons, hagree sp (List.mem_cons_self _ _)]
    by_cases hc : maxP ≤ checked
    · rw [if_pos hc, if_pos hc]
    · rw [if_neg hc, if_neg hc]
      rcases o2 (base ++ sp) subpageTimeout with ⟨status, page, ems, fu⟩ | _ | m | m <;> dsimp only
      · by_cases hs : status = 200
        · rw [if_pos hs, if_pos hs]
          rcases extractRoomCount page.raw with _ | ⟨v, pn⟩ <;> dsimp only
          · exact ih _ hrest
          · by_cases hv : v ≠ 0
            · rw [if_pos hv, if_pos hv]
            · rw [if_neg hv, if_neg hv]
              exact ih _ hrest
        · rw [if_neg hs, if_neg hs]
          exact ih _ hrest
      · exact ih _ hrest
      · exact ih _ hrest

/-- A detection carries a vendor, a non-detection carries none. -/
theorem detectChatbotStrict_type_iff (p : Page) :
    (detectChatbotStrict p).has_chatbot = true ↔ (detectChatbotStrict p).chatbot_type ≠ none := by
  unfold detectChatbotStrict
  rcases scanScriptSrc p.scripts with _ | ⟨v, s⟩
  · rcases scanInline p.scripts with _ | ⟨v, s⟩
    · rcases scanIframe p.iframeSrcs with _ | ⟨v, s⟩
      · simp
      · simp
    · simp
  · simp

/- ---------------------------------------------------------------- -/
/- C6: homepage fetch failure.                                      -/
/- ---------------------------------------------------------------- -/

/-- A fully empty page. -/
def pageBlank : Page :=
  { titleText := none, metaDescTag := none, rootLang := none, metaLangs := [],
    scripts := [], iframeSrcs := [], forms := [], anchorHrefs := [],
    anchorHreflangs := [], viewportContent := none, stylesheetHrefs := [], raw := "" }

/-- A network where every fetch raises a connection error. -/
def oConnC6 : Oracle := fun _ _ => .exnConn "connection refused"

/-- A network where every fetch returns HTTP 503. -/
def oHttpC6 : Oracle := fun _ _ => .resp 503 pageBlank 5 "https://h.example/"

/-- C6 counterexample: the code classifies a connection error and an
HTTP 503 under the same kind "RequestException" — it produces neither a
"ConnectionError" kind nor an "HttpError{status}" kind, so the claimed
four-way taxonomy Timeout / ConnectionError / HttpError{status} /
Unknown{message} does not describe the code. -/
theorem c6_counterexample :
    errorKindOf (crawl oConnC6 30 "https://h.example/") = some "RequestException" ∧
    errorKindOf (crawl oHttpC6 30 "https://h.example/") = some "RequestException" ∧
    errorKindOf (crawl oConnC6 30 "https://h.example/") ≠ some "ConnectionError" ∧
    errorKindOf (crawl oHttpC6 30 "https://h.example/") ≠ some "HttpError" := by
  refine ⟨by decide, by decide, by decide, by decide⟩

/-- C6 as amended: a homepage fetch failure aborts the whole crawl and
returns an error object `{url, error, error_message}` in place of a
report — no partial analysis fields, no retry — with the failure
classified into `Timeout`, `RequestException` (covering connection
errors and, via `raise_for_status`, HTTP 4xx/5xx statuses), or
`UnexpectedException`. -/
theorem c6_fetch_failure_amended :
    (∀ (o : Oracle) (t : Nat) (url : String), o url t = .exnTimeout →
        crawl o t url = .fetchError url "Timeout"
          ("Request timed out after " ++ toString t ++ " seconds")) ∧
    (∀ (o : Oracle) (t : Nat) (url m : String), o url t = .exnConn m →
        crawl o t url = .fetchError url "RequestException" m) ∧
    (∀ (o : Oracle) (t : Nat) (url m : String), o url t = .exnOther m →
        crawl o t url = .fetchError url "UnexpectedException" m) ∧
    (∀ (o : Oracle) (t : Nat) (url : String) (status : Nat) (page : Page)
        (ems : Nat) (fu : String),
        o url t = .resp status page ems fu → 400 ≤ status → status < 600 →
        crawl o t url = .fetchError url "RequestException" (httpErrorMsg status url)) := by
  refine ⟨?_, ?_, ?_, ?_⟩
  · intro o t url h
    unfold crawl
    rw [h]
  · intro o t url m h
    unfold crawl
    rw [h]
  · intro o t url m h
    unfold crawl
    rw [h]
  · intro o t url status page ems fu h h4 h6
    unfold crawl
    rw [h]
    dsimp only
    rw [if_pos ⟨h4, h6⟩]

/-- Witness for C6 at a concrete connection failure. -/
theorem c6_fetch_failure_amended_witness :
    crawl oConnC6 30 "https://h.example/"
      = CrawlResult.fetchError "https://h.example/" "RequestException" "connection refused" :=
  c6_fetch_failure_amended.2.1 oConnC6 30 "https://h.example/" "connection refused" rfl

/- ---------------------------------------------------------------- -/
/- C7: determinism / idempotence of `crawl`.                        -/
/- ---------------------------------------------------------------- -/

/-- Two fetches of the same static page content, differing only in the
elapsed wall time of the response. -/
def oStaticA : Oracle := fun u t =>
  if u = "https://h.example" ∧ t = 30 then .resp 200 pageBlank 100 "https://h.example/"
  else .resp 404 pageBlank 5 u

/-- Same network, slower answer. -/
def oStaticB : Oracle := fun u t =>
  if u = "https://h.example" ∧ t = 30 then .resp 200 pageBlank 200 "https://h.example/"
  else .resp 404 pageBlank 5 u

/-- C7 counterexample: two crawls of the same unchanged, static page
content do not yield byte-identical reports — the report embeds
`response_time_ms` (`int(response.elapsed.total_seconds() * 1000)`),
which differs between the two runs. -/
theorem c7_counterexample :
    crawl oStaticA 30 "https://h.example" ≠ crawl oStaticB 30 "https://h.example" := by
  decide

/-- C7 as amended: the report contains no randomness — it is a
deterministic function of the fetch responses (body, status, final url
and elapsed time): any two networks that agree on the homepage fetch and
on every candidate subpage fetch produce identical crawl results.
Byte-identity across two real runs holds only if the elapsed times also
coincide, since `response_time_ms` is part of the report body. -/
theorem c7_determinism_amended :
    ∀ (o1 o2 : Oracle) (t : Nat) (url : String),
      o1 url t = o2 url t →
      (∀ sp ∈ roomCountSubpages,
          o1 (rstripSlash url ++ sp) subpageTimeout
            = o2 (rstripSlash url ++ sp) subpageTimeout) →
      crawl o1 t url = crawl o2 t url := by
  intro o1 o2 t url h1 hsub
  unfold crawl
  rw [h1]
  rcases o2 url t with ⟨status, page, ems, fu⟩ | _ | m | m <;> dsimp only
  have hcs : crawlSubpages o1 url = crawlSubpages o2 url :=
    subLoop_congr o1 o2 (rstripSlash url) 3 roomCountSubpages 0 hsub
  rw [hcs]

/-- Witness for C7: agreement instantiated with a definitionally equal
copy of the same network. -/
theorem c7_determinism_amended_witness :
    crawl oStaticA 30 "https://h.example"
      = crawl (fun u t => oStaticA u t) 30 "https://h.example" :=
  c7_determinism_amended oStaticA (fun u t => oStaticA u t) 30 "https://h.example" rfl
    (fun _ _ => rfl)

/- ---------------------------------------------------------------- -/
/- C5: subpage fallback.                                            -/
/- ---------------------------------------------------------------- -/

/-- A page whose text carries a room count. -/
def pageRooms30 : Page := { pageBlank with raw := "30 rooms" }

/-- Network for the C5 counterexample: homepage without a room count,
first four candidate subpages missing (404), fifth (`/ueber-uns`)
carrying "30 rooms". -/
def oC5 : Oracle := fun u t =>
  if u = "https://h.example" ∧ t = 30 then .resp 200 pageBlank 50 "https://h.example/"
  else if u = "https://h.example/ueber-uns" ∧ t = subpageTimeout then
    .resp 200 pageRooms30 20 "https://h.example/ueber-uns"
  else .resp 404 pageBlank 5 u

/-- C5 counterexample: with the first four candidate subpages
unavailable, the search still fetches a fifth subpage and returns its
value — it has then attempted five subpages, so it does not stop "after
a fixed cap of 3 attempted subpages": only scanned-but-valueless
status-200 subpages count toward the cap. -/
theorem c5_counterexample :
    (reportOf (crawl oC5 30 "https://h.example")).map (fun r => (r.roomCount, r.roomCountSource))
      = some (some 30, some "https://h.example/ueber-uns") := by
  decide

/-- C5 as amended: the fallback runs only when the homepage yields no
room count; it walks the fixed priority-ordered subpage list with the
hard-coded shorter timeout 10 (the homepage uses the configured timeout,
30 by default); a non-200 subpage and a `requests`-level fetch failure
are skipped without aborting and without counting toward the cap; the
first subpage yielding a value stops the search with that subpage's URL
as source; a status-200 subpage without a value increments the counter,
and the search stops once 3 such subpages have been scanned; the subpage
result becomes the report's `room_count` / `room_count_source`. -/
theorem c5_subpage_fallback_amended :
    (∀ (o : Oracle) (t : Nat) (url : String) (status : Nat) (page : Page) (ems : Nat)
        (fu : String) (v : Nat) (pn : String),
        o url t = .resp status page ems fu → ¬ (400 ≤ status ∧ status < 600) →
        extractRoomCount page.raw = some (v, pn) →
        ∃ r, crawl o t url = .report r ∧ r.roomCount = some v ∧ r.roomCountSource = some pn) ∧
    (subpageTimeout = 10 ∧ defaultTimeout = 30 ∧ subpageTimeout < defaultTimeout) ∧
    (∀ (o : Oracle) (base : String) (maxP : Nat) (sp : String) (l : List String)
        (checked status : Nat) (page : Page) (ems : Nat) (fu : String),
        o (base ++ sp) subpageTimeout = .resp status page ems fu → status ≠ 200 →
        checked < maxP →
        subLoop o base maxP (sp :: l) checked = subLoop o base maxP l checked) ∧
    (∀ (o : Oracle) (base : String) (maxP : Nat) (sp : String) (l : List String)
        (checked : Nat),
        (o (base ++ sp) subpageTimeout = .exnTimeout ∨
          (∃ m, o (base ++ sp) subpageTimeout = .exnConn m)) → checked < maxP →
        subLoop o base maxP (sp :: l) checked = subLoop o base maxP l checked) ∧
    (∀ (o : Oracle) (base : String) (maxP : Nat) (sp : String) (l : List String)
        (checked : Nat) (page : Page) (ems : Nat) (fu : String) (v : Nat) (pn : String),
        o (base ++ sp) subpageTimeout = .resp 200 page ems fu →
        extractRoomCount page.raw = some (v, pn) → checked < maxP →
        subLoop o base maxP (sp :: l) checked = .ok (some (v, base ++ sp))) ∧
    (∀ (o : Oracle) (base : String) (maxP : Nat) (sp : String) (l : List String)
        (checked : Nat) (page : Page) (ems : Nat) (fu : String),
        o (base ++ sp) subpageTimeout = .resp 200 page ems fu →
        extractRoomCount page.raw = none → checked < maxP →
        subLoop o base maxP (sp :: l) checked = subLoop o base maxP l (checked + 1)) ∧
    (∀ (o : Oracle) (base : String) (maxP : Nat) (l : List String) (checked : Nat),
        maxP ≤ checked → subLoop o base maxP l checked = .ok none) ∧
    (∀ (o : Oracle) (t : Nat) (url : String) (status : Nat) (page : Page) (ems : Nat)
        (fu : String) (v : Nat) (su : String),
        o url t = .resp status page ems fu → ¬ (400 ≤ status ∧ status < 600) →
        extractRoomCount page.raw = none →
        crawlSubpages o url = .ok (some (v, su)) →
        ∃ r, crawl o t url = .report r ∧ r.roomCount = some v ∧ r.roomCountSource = some su) := by
  refine ⟨?_, ⟨rfl, rfl, by decide⟩, ?_, ?_, ?_, ?_, ?_, ?_⟩
  · intro o t url status page ems fu v pn ho hstat hrc
    have hv : 1 ≤ v := (extractRoomCount_range _ _ _ hrc).1
    have ht : truthyRC (extractRoomCount page.raw) = true := by
      rw [hrc]
      simp only [truthyRC, ne_eq, bne_iff_ne]
      omega
    unfold crawl
    rw [ho]
    dsimp only
    rw [if_neg hstat, if_pos ht, hrc]
    exact ⟨_, rfl, rfl, rfl⟩
  · intro o base maxP sp l checked status page ems fu ho hs hc
    rw [subLoop_cons, if_neg (not_le.mpr hc), ho]
    dsimp only
    rw [if_neg hs]
  · intro o base maxP sp l checked hfail hc
    rcases hfail with h | ⟨m, h⟩ <;> rw [subLoop_cons, if_neg (not_le.mpr hc), h]
  · intro o base maxP sp l checked page ems fu v pn ho hrc hc
    have hv : v ≠ 0 := by
      have := (extractRoomCount_range _ _ _ hrc).1
      omega
    rw [subLoop_cons, if_neg (not_le.mpr hc), ho]
    dsimp only
    rw [if_pos rfl, hrc]
    dsimp only
    rw [if_pos hv]
  · intro o base maxP sp l checked page ems fu ho hrc hc
    rw [subLoop_cons, if_neg (not_le.mpr hc), ho]
    dsimp only
    rw [if_pos rfl, hrc]
  · intro o base maxP l checked hcap
    cases l with
    | nil => rfl
    | cons sp rest => rw [subLoop_cons, if_pos hcap]
  · intro o t url status page ems fu v su ho hstat hrc hsub
    have hv : 1 ≤ v := by
      rw [crawlSubpages] at hsub
      exact subLoop_ok_some_pos o (rstripSlash url) 3 roomCountSubpages 0 v su hsub
    have ht : truthyRC (extractRoomCount page.raw) = true → False := by
      rw [hrc]
      simp [truthyRC]
    have ht2 : truthyRC (some (v, su)) = true := by
      simp only [truthyRC, ne_eq, bne_iff_ne]
      omega
    unfold crawl
    rw [ho]
    dsimp only
    rw [if_neg hstat, if_neg ht, hsub]
    dsimp only
    rw [if_pos ht2]
    exact ⟨_, rfl, rfl, rfl⟩

/-- Network whose homepage itself carries the room count. -/
def oHome30 : Oracle := fun u t =>
  if u = "https://h.example" ∧ t = 30 then .resp 200 pageRooms30 50 "https://h.example/"
  else .resp 404 pageBlank 5 u

/-- Witness for C5: the homepage short-circuit at a concrete network. -/
theorem c5_subpage_fallback_amended_witness :
    ∃ r, crawl oHome30 30 "https://h.example" = .report r ∧
      r.roomCount = some 30 ∧ r.roomCountSource = some "basic_rooms" :=
  c5_subpage_fallback_amended.1 oHome30 30 "https://h.example" 200 pageRooms30 50
    "https://h.example/" 30 "basic_rooms" (by decide) (by decide) (by decide)

/- ---------------------------------------------------------------- -/
/- C10: report field consistency.                                   -/
/- ---------------------------------------------------------------- -/

/-- C10: on every successful crawl, `has_chatbot` is true exactly when
`chatbot_type` carries a vendor (and it is the detector's vendor), and
`room_count_source` is present exactly when `room_count` is. -/
theorem c10_report_consistency :
    ∀ (o : Oracle) (t : Nat) (url : String) (r : CrawlReport),
      crawl o t url = .report r →
      ((r.hasChatbot = true ↔ r.chatbotType ≠ none) ∧
       r.chatbotType = r.chatbotDetails.chatbot_type ∧
       (r.roomCountSource ≠ none ↔ r.roomCount ≠ none)) := by
  intro o t url r h
  unfold crawl at h
  rcases ho : o url t with ⟨status, page, ems, fu⟩ | _ | m | m <;> rw [ho] at h <;>
    dsimp only at h
  · by_cases hs : 400 ≤ status ∧ status < 600
    · rw [if_pos hs] at h
      cases h
    · rw [if_neg hs] at h
      by_cases ht : truthyRC (extractRoomCount page.raw) = true
      · rw [if_pos ht] at h
        cases h
        refine ⟨detectChatbotStrict_type_iff page, rfl, ?_⟩
        rcases hrc : extractRoomCount page.raw with _ | ⟨v, pn⟩
        · rw [hrc] at ht
          simp [truthyRC] at ht
        · simp
      · rw [if_neg ht] at h
        rcases hcs : crawlSubpages o url with m | res <;> rw [hcs] at h <;> dsimp only at h
        · cases h
        · cases h
          refine ⟨detectChatbotStrict_type_iff page, rfl, ?_⟩
          rcases res with _ | ⟨v, su⟩
          · simp [truthyRC]
          · have hv : 1 ≤ v := by
              rw [crawlSubpages] at hcs
              exact subLoop_ok_some_pos o (rstripSlash url) 3 roomCountSubpages 0 v su hcs
            have ht2 : truthyRC (some (v, su)) = true := by
              simp only [truthyRC, ne_eq, bne_iff_ne]
              omega
            rw [ht2]
            simp
  · cases h
  · cases h
  · cases h

/-- A syntactically uninteresting report, used only as a `getD` default. -/
def junkReport : CrawlReport :=
  { url := "", finalUrl := "", statusCode := 0, title := "", metaDescription := "",
    languages := [], hasChatbot := false, chatbotType := none,
    chatbotDetails := ⟨false, none, none, none⟩, roomCount := none,
    roomCountSource := none, leadForms := [], pagesCount := 0,
    mobileResponsive := false, contactInfo := ⟨[], [], []⟩, responseTimeMs := 0 }

/-- The report produced by the static network of C7's fixtures. -/
def rep10 : CrawlReport := (reportOf (crawl oStaticA 30 "https://h.example")).getD junkReport

/-- Witness for C10 at a concrete successful crawl. -/
theorem c10_report_consistency_witness :
    (rep10.hasChatbot = true ↔ rep10.chatbotType ≠ none) ∧
    rep10.chatbotType = rep10.chatbotDetails.chatbot_type ∧
    (rep10.roomCountSource ≠ none ↔ rep10.roomCount ≠ none) :=
  c10_report_consistency oStaticA 30 "https://h.example" rep10 (by decide)
